import Mathlib

/-
Verification of the Interactive Remote Session Manager of the konnect
repository (src/src-tauri/src): session registries, the SSH authentication
state machine with keyboard-interactive MFA, the MFA pending-challenge map,
and the local PTY session manager. Rust `HashMap<String, V>` state is
modelled by association lists with unique keys; external effects (network,
filesystem, the frontend responder) are modelled as explicit outcome
parameters threaded through the translated control flow.
-/

set_option autoImplicit false

namespace Konnect

/-- Association-list model of `HashMap<String, V>`: `get` finds the first
binding, `remove` drops every binding of the key, `insert` replaces. -/
abbrev AssocMap (α : Type) := List (String × α)

namespace AssocMap

variable {α : Type}

/-- Model of `HashMap::get` / lookup of a key. -/
def get (k : String) : AssocMap α → Option α
  | [] => none
  | (k2, v) :: t => if k2 = k then some v else get k t

/-- Model of `HashMap::remove` (the value, if any, is returned by `get`). -/
def remove (k : String) : AssocMap α → AssocMap α
  | [] => []
  | (k2, v) :: t => if k2 = k then remove k t else (k2, v) :: remove k t

/-- Model of `HashMap::insert`, replacing any existing binding of the key. -/
def insert (k : String) (v : α) (m : AssocMap α) : AssocMap α :=
  (k, v) :: remove k m

/-- Model of `HashMap::contains_key`. -/
def contains_key (k : String) (m : AssocMap α) : Bool :=
  (get k m).isSome

theorem get_remove_self (k : String) (m : AssocMap α) : get k (remove k m) = none := by
  induction m with
  | nil => rfl
  | cons hd t ih =>
    obtain ⟨k2, v⟩ := hd
    by_cases h : k2 = k
    · simp [remove, h, ih]
    · simp [remove, get, h, ih]

theorem get_remove_ne (k k2 : String) (m : AssocMap α) (h : k2 ≠ k) :
    get k2 (remove k m) = get k2 m := by
  induction m with
  | nil => rfl
  | cons hd t ih =>
    obtain ⟨k3, v⟩ := hd
    by_cases h3 : k3 = k
    · subst h3
      have hne : ¬ k3 = k2 := fun hc => h hc.symm
      simp [remove, get, hne, ih]
    · by_cases h4 : k3 = k2
      · subst h4
        simp [remove, get, h3, ih]
      · simp [remove, get, h3, h4, ih]

theorem get_insert_self (k : String) (v : α) (m : AssocMap α) :
    get k (insert k v m) = some v := by
  simp [insert, get]

theorem get_insert_ne (k k2 : String) (v : α) (m : AssocMap α) (h : k2 ≠ k) :
    get k2 (insert k v m) = get k2 m := by
  have hne : ¬ k = k2 := fun hc => h hc.symm
  simp [insert, get, hne, get_remove_ne k k2 m h]

theorem get_eq_none_of_not_mem_keys (k : String) (m : AssocMap α)
    (h : k ∉ m.map Prod.fst) : get k m = none := by
  induction m with
  | nil => rfl
  | cons hd t ih =>
    obtain ⟨k2, v⟩ := hd
    simp only [List.map_cons, List.mem_cons] at h
    push_neg at h
    have hne : ¬ k2 = k := fun hc => h.1 hc.symm
    simp [get, hne, ih h.2]

end AssocMap

deriving instance DecidableEq for Except

/-! ### MFA pending-challenge map (src/src-tauri/src/ssh/commands.rs)

`MfaResponseMap = Arc<Mutex<HashMap<String, oneshot::Sender<Vec<String>>>>>`.
A oneshot sender is modelled by the identity of the challenge round that is
waiting on the paired receiver, plus whether that receiver still exists
(`send` succeeds exactly when the receiver has not been dropped). -/

/-- Model of the `oneshot::Sender<Vec<String>>` stored in the MFA map. -/
structure MfaSender where
  challengeId : Nat
  receiverAlive : Bool
deriving Repr, DecidableEq

/-- The error string built by `format!("No pending MFA request for terminal: {}", terminal_id)`. -/
def noPendingMfaError (terminal_id : String) : String :=
  "No pending MFA request for terminal: " ++ terminal_id

/-- The error string for a failed `sender.send(responses)`. -/
def channelClosedError : String :=
  "Failed to send MFA response: channel closed"

/-- Observable outcome of `submit_ssh_mfa_response`: the command result, the
pending-challenge map afterwards, and which waiting challenge (if any)
received which response strings. -/
structure SubmitOutcome where
  result : Except String Unit
  channels : AssocMap MfaSender
  delivered : Option (Nat × List String)
deriving Repr, DecidableEq

/-- Translation of `submit_ssh_mfa_response` (ssh/commands.rs, lines 124-140):
`channels.remove(&terminal_id)` first, then `sender.send(responses)`, whose
failure is mapped to the channel-closed error by the `?` operator. -/
def submit_ssh_mfa_response (terminal_id : String) (responses : List String)
    (channels : AssocMap MfaSender) : SubmitOutcome :=
  match AssocMap.get terminal_id channels with
  | some sender =>
    let channels2 := AssocMap.remove terminal_id channels
    if sender.receiverAlive then
      { result := .ok (), channels := channels2,
        delivered := some (sender.challengeId, responses) }
    else
      { result := .error channelClosedError, channels := channels2, delivered := none }
  | none =>
    { result := .error (noPendingMfaError terminal_id), channels := channels,
      delivered := none }

/-- Translation of `cancel_ssh_mfa` (ssh/commands.rs, lines 145-154): remove
the entry; the dropped sender makes the waiting receiver observe an error. -/
def cancel_ssh_mfa (terminal_id : String) (channels : AssocMap MfaSender) :
    AssocMap MfaSender :=
  AssocMap.remove terminal_id channels

/-! ### Keyboard-interactive (MFA) authentication loop
(src/src-tauri/src/ssh/session.rs, `perform_keyboard_interactive_auth`) -/

/-- A prompt of a russh `InfoRequest`. -/
structure KbPrompt where
  prompt : String
  echo : Bool
deriving Repr, DecidableEq

/-- russh `KeyboardInteractiveAuthResponse`. -/
inductive KbAuthResponse
  | success
  | failure
  | infoRequest (name : String) (instr : String) (prompts : List KbPrompt)
deriving Repr, DecidableEq

/-- `MfaPrompt` of src/src-tauri/src/ssh/mfa.rs. -/
structure MfaPrompt where
  prompt : String
  echo : Bool
deriving Repr, DecidableEq

/-- `MfaPromptPayload` of src/src-tauri/src/ssh/mfa.rs, emitted to the
frontend as the `ssh-mfa-prompt` event. -/
structure MfaPromptPayload where
  terminal_id : String
  name : String
  instr : String
  prompts : List MfaPrompt
deriving Repr, DecidableEq

/-- The fixed MFA response timeout, `Duration::from_secs(120)` in
session.rs line 404. -/
def mfaResponseTimeoutSecs : Nat := 120

/-- Outcome of one `tokio::time::timeout(…, rx).await` wait on the oneshot
receiver: `responded rs` models the frontend having called
`submit_ssh_mfa_response` (which consumed the map entry and sent `rs`);
`cancelled` models `cancel_ssh_mfa` having removed the entry and dropped the
sender; `timedOut` models no response within `mfaResponseTimeoutSecs`. -/
inductive WaitResult
  | responded (responses : List String)
  | cancelled
  | timedOut
deriving Repr, DecidableEq

/-- The MFA-coordination state visible to the auth loop: the pending-challenge
map, the `ssh-mfa-prompt` events emitted so far, and a counter giving each
oneshot channel a distinct identity. -/
structure KbiState where
  channels : AssocMap MfaSender
  events : List MfaPromptPayload
  nextChallengeId : Nat
deriving Repr, DecidableEq

/-- Translation of the response loop of `perform_keyboard_interactive_auth`
(session.rs, lines 349-434). The server side is a script: each element is
the outcome of the next `authenticate_keyboard_interactive_respond` call
(`.error e` for a transport error propagated by `?`, an exhausted script for
a lost connection). `mfaTimeline` lists the outcomes of the successive waits
on the frontend. Returns the `Result<bool>` of the Rust function together
with the MFA-coordination state afterwards. -/
def kbiLoop (terminal_id : String) (resp : KbAuthResponse)
    (script : List (Except String KbAuthResponse))
    (mfaTimeline : List WaitResult) (st : KbiState) :
    Except String Bool × KbiState :=
  match resp with
  | .success => (.ok true, st)
  | .failure => (.ok false, st)
  | .infoRequest name instr prompts =>
    if prompts.isEmpty then
      -- Empty prompts: respond with an empty vec and continue the loop.
      match script with
      | [] => (.error "Disconnected", st)
      | .error e :: _ => (.error e, st)
      | .ok next :: rest => kbiLoop terminal_id next rest mfaTimeline st
    else
      -- Create the oneshot channel and store the sender in the global map.
      let sender : MfaSender :=
        { challengeId := st.nextChallengeId, receiverAlive := true }
      let payload : MfaPromptPayload :=
        { terminal_id := terminal_id, name := name, instr := instr,
          prompts := prompts.map fun p => { prompt := p.prompt, echo := p.echo } }
      let st1 : KbiState :=
        { channels := AssocMap.insert terminal_id sender st.channels,
          events := st.events ++ [payload],
          nextChallengeId := st.nextChallengeId + 1 }
      match mfaTimeline.headD .timedOut with
      | .responded _ =>
        -- The submit command consumed (removed) the map entry and delivered
        -- the responses; they are forwarded to the server and the loop
        -- continues with the server's next reply.
        let st2 := { st1 with channels := AssocMap.remove terminal_id st1.channels }
        match script with
        | [] => (.error "Disconnected", st2)
        | .error e :: _ => (.error e, st2)
        | .ok next :: rest => kbiLoop terminal_id next rest mfaTimeline.tail st2
      | .cancelled =>
        -- The cancel command removed the entry, dropping the sender; the
        -- receiver errors and the loop returns the cancellation error.
        (.error "MFA authentication cancelled by user",
          { st1 with channels := AssocMap.remove terminal_id st1.channels })
      | .timedOut =>
        -- Timeout: the loop itself removes the entry (session.rs line 422)
        -- and fails with the timeout error.
        (.error "MFA authentication timeout",
          { st1 with channels := AssocMap.remove terminal_id st1.channels })

/-- Translation of `perform_keyboard_interactive_auth` (session.rs, lines
316-435): `authenticate_keyboard_interactive_start` consumes the first
script element, then the response loop runs. -/
def perform_keyboard_interactive_auth (terminal_id : String)
    (script : List (Except String KbAuthResponse))
    (mfaTimeline : List WaitResult) (st : KbiState) :
    Except String Bool × KbiState :=
  match script with
  | [] => (.error "Disconnected", st)
  | .error e :: _ => (.error e, st)
  | .ok first :: rest => kbiLoop terminal_id first rest mfaTimeline st

/-! ### SSH session creation (src/src-tauri/src/ssh/session.rs, `SshSession::new`) -/

/-- `SshAuth` of src/src-tauri/src/models/connection.rs. -/
inductive SshAuth
  | password (password : String)
  | publicKey (private_key_path : String) (passphrase : Option String)
deriving Repr, DecidableEq

/-- `SshConfig` of src/src-tauri/src/models/connection.rs. -/
structure SshConfig where
  host : String
  port : Nat
  username : String
  auth : SshAuth
deriving Repr, DecidableEq

/-- Outcomes of the external calls made during `SshSession::new`, in program
order: TCP connect/handshake, key-file read, key decode, RSA hash query, the
primary authenticate call (`.ok b` gives `result.success()`), the server
script and frontend timeline for keyboard-interactive auth, and the three
channel-setup requests. -/
structure RemoteWorld where
  connect : Except String Unit
  read_key_file : Except String String
  decode_secret_key : Except String Unit
  best_supported_rsa_hash : Except String Unit
  authenticate : Except String Bool
  kbiScript : List (Except String KbAuthResponse)
  mfaTimeline : List WaitResult
  channel_open_session : Except String Unit
  request_pty : Except String Unit
  request_shell : Except String Unit
deriving Repr, DecidableEq

/-- Step 1 of the authentication strategy (session.rs, lines 108-147): the
configured credential is attempted; an error from `authenticate_password` or
`authenticate_publickey` is wrapped as "Authentication error: …", while
errors from reading or decoding the key file (and the RSA-hash query) are
propagated as-is by the `?` operator. `.ok b` carries `result.success()`. -/
def primaryAuthAttempt (auth : SshAuth) (w : RemoteWorld) : Except String Bool :=
  match auth with
  | .password _ =>
    match w.authenticate with
    | .ok b => .ok b
    | .error e => .error ("Authentication error: " ++ e)
  | .publicKey _ _ =>
    match w.read_key_file with
    | .error e => .error e
    | .ok _ =>
      match w.decode_secret_key with
      | .error e => .error e
      | .ok _ =>
        match w.best_supported_rsa_hash with
        | .error e => .error e
        | .ok _ =>
          match w.authenticate with
          | .ok b => .ok b
          | .error e => .error ("Authentication error: " ++ e)

/-- Column count of the fixed initial PTY geometry (session.rs line 201). -/
def sshDefaultCols : Nat := 80

/-- Row count of the fixed initial PTY geometry (session.rs line 202). -/
def sshDefaultRows : Nat := 24

/-- Arguments of the `request_pty` call. The source passes
`&config.username` as the terminal-name argument and the literal geometry
80 x 24 with zero pixel sizes. -/
structure PtyRequest where
  term : String
  cols : Nat
  rows : Nat
  pix_width : Nat
  pix_height : Nat
deriving Repr, DecidableEq

/-- Observable outcome of `SshSession::new`: the overall result, whether
keyboard-interactive auth was entered, the PTY request issued (if any),
whether an interactive shell was requested, and the MFA-coordination state
afterwards. -/
structure SshNewResult where
  result : Except String Unit
  kbiAttempted : Bool
  ptyRequested : Option PtyRequest
  shellRequested : Bool
  mfaState : KbiState
deriving Repr, DecidableEq

/-- Translation of the channel-setup phase of `SshSession::new` (session.rs,
lines 183-222): open a session channel, request a PTY with the fixed 80 x 24
geometry, request a shell; each failure maps to its prefixed error. -/
def channelSetup (config : SshConfig) (w : RemoteWorld) (kbi : Bool)
    (st : KbiState) : SshNewResult :=
  match w.channel_open_session with
  | .error e =>
    { result := .error ("Failed to open channel: " ++ e), kbiAttempted := kbi,
      ptyRequested := none, shellRequested := false, mfaState := st }
  | .ok _ =>
    let req : PtyRequest :=
      { term := config.username, cols := sshDefaultCols, rows := sshDefaultRows,
        pix_width := 0, pix_height := 0 }
    match w.request_pty with
    | .error e =>
      { result := .error ("PTY request failed: " ++ e), kbiAttempted := kbi,
        ptyRequested := some req, shellRequested := false, mfaState := st }
    | .ok _ =>
      match w.request_shell with
      | .error e =>
        { result := .error ("Shell request failed: " ++ e), kbiAttempted := kbi,
          ptyRequested := some req, shellRequested := true, mfaState := st }
      | .ok _ =>
        { result := .ok (), kbiAttempted := kbi, ptyRequested := some req,
          shellRequested := true, mfaState := st }

/-- Translation of `SshSession::new` (session.rs, lines 43-292): connect,
primary authentication, keyboard-interactive fallback exactly when the
primary attempt returned a non-error rejection, then channel setup. -/
def sshSessionNew (config : SshConfig) (terminal_id : String) (w : RemoteWorld)
    (st : KbiState) : SshNewResult :=
  match w.connect with
  | .error e =>
    { result := .error ("Connection failed: " ++ e), kbiAttempted := false,
      ptyRequested := none, shellRequested := false, mfaState := st }
  | .ok _ =>
    match primaryAuthAttempt config.auth w with
    | .error e =>
      { result := .error e, kbiAttempted := false, ptyRequested := none,
        shellRequested := false, mfaState := st }
    | .ok true => channelSetup config w false st
    | .ok false =>
      match perform_keyboard_interactive_auth terminal_id w.kbiScript
          w.mfaTimeline st with
      | (.ok true, st2) => channelSetup config w true st2
      | (.ok false, st2) =>
        { result := .error "SSH MFA authentication failed", kbiAttempted := true,
          ptyRequested := none, shellRequested := false, mfaState := st2 }
      | (.error e, st2) =>
        { result := .error ("MFA authentication error: " ++ e),
          kbiAttempted := true, ptyRequested := none, shellRequested := false,
          mfaState := st2 }

/-! ### Local PTY sessions (src/src-tauri/src/terminal/pty_manager.rs) -/

/-- `PtyConfig` of pty_manager.rs. -/
structure PtyConfig where
  id : String
  shell : String
  cols : Nat
  rows : Nat
deriving Repr, DecidableEq

/-- The allow-listed keys of the `matches!` guard in pty_manager.rs line 50. -/
def envAllowList : List String :=
  ["HOME", "PATH", "USER", "SHELL", "LANG", "LC_ALL"]

/-- The environment of the spawned child process. `CommandBuilder::new`
(portable_pty) seeds the builder's environment with the full parent-process
environment (`std::env::vars_os()`), and `PtySession::new` never calls
`env_clear`; onto that base the code sets `TERM` to `xterm-256color` and
then re-sets each allow-listed parent variable to its (already inherited)
parent value (pty_manager.rs, lines 42-53). Each `env` call replaces any
earlier binding of the same key. -/
def buildChildEnv (parentEnv : List (String × String)) : AssocMap String :=
  parentEnv.foldl
    (fun cmd kv =>
      if envAllowList.contains kv.1 then AssocMap.insert kv.1 kv.2 cmd else cmd)
    (AssocMap.insert "TERM" "xterm-256color"
      (parentEnv.foldl (fun cmd kv => AssocMap.insert kv.1 kv.2 cmd) []))

/-- Outcomes of the fallible external calls of `PtySession::new`, in program
order: `openpty`, `spawn_command`, `take_writer`, `try_clone_reader`. -/
structure PtyWorld where
  openpty : Except String Unit
  spawn_command : Except String Unit
  take_writer : Except String Unit
  try_clone_reader : Except String Unit
deriving Repr, DecidableEq

/-- The constructed `PtySession` (pty_manager.rs, lines 16-21), recording the
data that determined the spawned child: shell, arguments, environment and
initial geometry. -/
structure PtySessionModel where
  id : String
  shell : String
  args : List String
  childEnv : AssocMap String
  rows : Nat
  cols : Nat
deriving Repr, DecidableEq

/-- Translation of `PtySession::new` (pty_manager.rs, lines 24-115): openpty
with the requested geometry, build the command (`shell -i` with the
environment of `buildChildEnv`), spawn, split the master into writer and
reader; each `?` propagates a failure. -/
def ptySessionNew (config : PtyConfig) (parentEnv : List (String × String))
    (w : PtyWorld) : Except String PtySessionModel :=
  match w.openpty with
  | .error e => .error e
  | .ok _ =>
    match w.spawn_command with
    | .error e => .error e
    | .ok _ =>
      match w.take_writer with
      | .error e => .error e
      | .ok _ =>
        match w.try_clone_reader with
        | .error e => .error e
        | .ok _ =>
          .ok { id := config.id, shell := config.shell, args := ["-i"],
                childEnv := buildChildEnv parentEnv, rows := config.rows,
                cols := config.cols }

/-! ### Command surface (src/src-tauri/src/terminal/commands.rs and
src/src-tauri/src/ssh/commands.rs) -/

/-- A registered SSH session handle as stored in `SshSessionMap`. -/
structure SshSessionModel where
  id : String
deriving Repr, DecidableEq

/-- Outcome of a create command: its result, the registry afterwards, and
whether a new session construction (process spawn / connection) was
attempted at all. -/
structure CreateOutcome (α : Type) where
  result : Except String Unit
  sessions : AssocMap α
  spawnAttempted : Bool
deriving Repr, DecidableEq

/-- Translation of `create_terminal` (terminal/commands.rs, lines 4-31): an
already-registered id returns `Ok(())` without constructing anything;
otherwise `PtySession::new` runs and, on success only, the session is
inserted. -/
def create_terminal (config : PtyConfig) (parentEnv : List (String × String))
    (w : PtyWorld) (sessions : AssocMap PtySessionModel) :
    CreateOutcome PtySessionModel :=
  if AssocMap.contains_key config.id sessions then
    { result := .ok (), sessions := sessions, spawnAttempted := false }
  else
    match ptySessionNew config parentEnv w with
    | .error e =>
      { result := .error ("Failed to create terminal: " ++ e),
        sessions := sessions, spawnAttempted := true }
    | .ok s =>
      { result := .ok (), sessions := AssocMap.insert config.id s sessions,
        spawnAttempted := true }

/-- `ConnectionType` of src/src-tauri/src/models/connection.rs. -/
inductive ConnectionType
  | local
  | ssh
  | telnet
  | serial
deriving Repr, DecidableEq

/-- `Connection` of src/src-tauri/src/models/connection.rs. -/
structure Connection where
  id : String
  name : String
  connection_type : ConnectionType
  ssh_config : Option SshConfig
deriving Repr, DecidableEq

/-- Translation of `create_ssh_terminal` (ssh/commands.rs, lines 18-54): an
already-registered id returns `Ok(())` before anything is attempted; a
missing `ssh_config` errors; otherwise `SshSession::new` runs and, on
success only, the session is inserted. The returned outcome also carries
the MFA state left by the creation attempt. -/
def create_ssh_terminal (config : Connection) (w : RemoteWorld) (st : KbiState)
    (sessions : AssocMap SshSessionModel) :
    CreateOutcome SshSessionModel × KbiState :=
  if AssocMap.contains_key config.id sessions then
    ({ result := .ok (), sessions := sessions, spawnAttempted := false }, st)
  else
    match config.ssh_config with
    | none =>
      ({ result := .error "SSH config is required for SSH connection",
         sessions := sessions, spawnAttempted := false }, st)
    | some cfg =>
      let r := sshSessionNew cfg config.id w st
      match r.result with
      | .error e =>
        ({ result := .error ("Failed to create SSH session: " ++ e),
           sessions := sessions, spawnAttempted := true }, r.mfaState)
      | .ok _ =>
        ({ result := .ok (),
           sessions := AssocMap.insert config.id { id := config.id } sessions,
           spawnAttempted := true }, r.mfaState)

/-- Translation of `write_to_terminal` (terminal/commands.rs, lines 33-45):
a missing id is silently `Ok(())`; a present id forwards the write, whose
outcome `writeResult` is supplied by the PTY. -/
def write_to_terminal (id : String) (writeResult : Except String Unit)
    (sessions : AssocMap PtySessionModel) : Except String Unit :=
  match AssocMap.get id sessions with
  | some _ =>
    match writeResult with
    | .error e => .error ("Write failed: " ++ e)
    | .ok _ => .ok ()
  | none => .ok ()

/-- Translation of `close_terminal` (terminal/commands.rs, lines 62-69):
remove the entry from the registry and return `Ok(())`. -/
def close_terminal (id : String) (sessions : AssocMap PtySessionModel) :
    AssocMap PtySessionModel :=
  AssocMap.remove id sessions

/-- Translation of `write_to_ssh_terminal` (ssh/commands.rs, lines 65-93):
a missing id errors with "Session … not found"; a present id forwards the
write. -/
def write_to_ssh_terminal (id : String) (writeResult : Except String Unit)
    (sessions : AssocMap SshSessionModel) : Except String Unit :=
  match AssocMap.get id sessions with
  | some _ =>
    match writeResult with
    | .error e => .error ("Write failed: " ++ e)
    | .ok _ => .ok ()
  | none => .error ("Session " ++ id ++ " not found")

/-- Translation of `close_ssh_terminal` (ssh/commands.rs, lines 112-119):
remove the entry from the registry and return `Ok(())`. -/
def close_ssh_terminal (id : String) (sessions : AssocMap SshSessionModel) :
    AssocMap SshSessionModel :=
  AssocMap.remove id sessions

/-! ### Claim theorems -/

/-- C3: for every terminal id, submitting MFA responses while a challenge is
pending for that id resolves exactly that challenge and no other (entries
for other ids are untouched) and returns ok; submitting when no challenge is
pending for that id returns the no-pending-challenge error and leaves the
pending-challenge map unchanged. -/
theorem submit_resolves_exactly_pending_challenge :
    (∀ (tid : String) (rs : List String) (channels : AssocMap MfaSender)
        (sender : MfaSender),
        AssocMap.get tid channels = some sender → sender.receiverAlive = true →
        (submit_ssh_mfa_response tid rs channels).result = .ok () ∧
        (submit_ssh_mfa_response tid rs channels).delivered =
          some (sender.challengeId, rs) ∧
        AssocMap.get tid (submit_ssh_mfa_response tid rs channels).channels = none ∧
        ∀ tid2, tid2 ≠ tid →
          AssocMap.get tid2 (submit_ssh_mfa_response tid rs channels).channels =
            AssocMap.get tid2 channels) ∧
    (∀ (tid : String) (rs : List String) (channels : AssocMap MfaSender),
        AssocMap.get tid channels = none →
        (submit_ssh_mfa_response tid rs channels).result =
          .error (noPendingMfaError tid) ∧
        (submit_ssh_mfa_response tid rs channels).channels = channels ∧
        (submit_ssh_mfa_response tid rs channels).delivered = none) := by
  constructor
  · intro tid rs channels sender hget halive
    refine ⟨?_, ?_, ?_, ?_⟩
    · simp [submit_ssh_mfa_response, hget, halive]
    · simp [submit_ssh_mfa_response, hget, halive]
    · simp [submit_ssh_mfa_response, hget, halive, AssocMap.get_remove_self]
    · intro tid2 hne
      simp only [submit_ssh_mfa_response, hget, halive, if_pos]
      exact AssocMap.get_remove_ne tid tid2 channels hne
  · intro tid rs channels hget
    refine ⟨?_, ?_, ?_⟩ <;> simp [submit_ssh_mfa_response, hget]

/-- Witness for C3 at a concrete two-entry map. -/
theorem submit_resolves_exactly_pending_challenge_witness :
    (submit_ssh_mfa_response "t1" ["123456"]
        [("t1", ⟨7, true⟩), ("t2", ⟨8, true⟩)]).result = .ok () ∧
    (submit_ssh_mfa_response "t1" ["123456"]
        [("t1", ⟨7, true⟩), ("t2", ⟨8, true⟩)]).delivered = some (7, ["123456"]) ∧
    AssocMap.get "t2" (submit_ssh_mfa_response "t1" ["123456"]
        [("t1", ⟨7, true⟩), ("t2", ⟨8, true⟩)]).channels = some ⟨8, true⟩ ∧
    (submit_ssh_mfa_response "t3" ["x"] [("t1", ⟨7, true⟩)]).result =
      .error (noPendingMfaError "t3") := by
  have h1 := submit_resolves_exactly_pending_challenge.1 "t1" ["123456"]
    [("t1", ⟨7, true⟩), ("t2", ⟨8, true⟩)] ⟨7, true⟩ (by decide) rfl
  have h2 := submit_resolves_exactly_pending_challenge.2 "t3" ["x"]
    [("t1", ⟨7, true⟩)] (by decide)
  refine ⟨h1.1, h1.2.1, ?_, h2.1⟩
  rw [h1.2.2.2 "t2" (by decide)]
  decide

/-- C10: `submit_ssh_mfa_response` removes the pending sender for the
terminal id from the map before attempting delivery, so even when delivery
fails because the waiting authentication task is gone (the call returns a
channel-closed error), the entry stays removed; hence for every terminal id
two consecutive submit calls never both find a pending challenge — the
second always fails with the no-pending error. -/
theorem submit_removes_entry_before_delivery :
    (∀ (tid : String) (rs : List String) (channels : AssocMap MfaSender)
        (sender : MfaSender),
        AssocMap.get tid channels = some sender → sender.receiverAlive = false →
        (submit_ssh_mfa_response tid rs channels).result = .error channelClosedError ∧
        AssocMap.get tid (submit_ssh_mfa_response tid rs channels).channels = none) ∧
    (∀ (tid : String) (rs : List String) (channels : AssocMap MfaSender),
        AssocMap.get tid (submit_ssh_mfa_response tid rs channels).channels = none) ∧
    (∀ (tid : String) (rs rs2 : List String) (channels : AssocMap MfaSender),
        (submit_ssh_mfa_response tid rs2
          (submit_ssh_mfa_response tid rs channels).channels).result =
            .error (noPendingMfaError tid)) := by
  have hnone : ∀ (tid : String) (rs : List String) (channels : AssocMap MfaSender),
      AssocMap.get tid (submit_ssh_mfa_response tid rs channels).channels = none := by
    intro tid rs channels
    cases hget : AssocMap.get tid channels with
    | none => simp [submit_ssh_mfa_response, hget]
    | some sender =>
      cases halive : sender.receiverAlive <;>
        simp [submit_ssh_mfa_response, hget, halive, AssocMap.get_remove_self]
  refine ⟨?_, hnone, ?_⟩
  · intro tid rs channels sender hget halive
    constructor
    · simp [submit_ssh_mfa_response, hget, halive]
    · exact hnone tid rs channels
  · intro tid rs rs2 channels
    have h := hnone tid rs channels
    generalize hM : (submit_ssh_mfa_response tid rs channels).channels = m at h
    simp [submit_ssh_mfa_response, h]

/-- Witness for C10: a pending entry whose receiver is gone — the submit
errors with the channel-closed error, yet a second submit observes no
pending challenge. -/
theorem submit_removes_entry_before_delivery_witness :
    (submit_ssh_mfa_response "t1" ["111"] [("t1", ⟨3, false⟩)]).result =
      .error channelClosedError ∧
    (submit_ssh_mfa_response "t1" ["222"]
      (submit_ssh_mfa_response "t1" ["111"] [("t1", ⟨3, false⟩)]).channels).result =
        .error (noPendingMfaError "t1") :=
  ⟨(submit_removes_entry_before_delivery.1 "t1" ["111"] [("t1", ⟨3, false⟩)]
      ⟨3, false⟩ (by decide) rfl).1,
   submit_removes_entry_before_delivery.2.2 "t1" ["111"] ["222"] [("t1", ⟨3, false⟩)]⟩

/-- C4: whenever the keyboard-interactive loop receives an InfoRequest whose
prompt list is empty, it immediately replies with an empty response list and
re-enters the loop with the server's next reply, emitting no mfa-prompt
notification and inserting no pending challenge (the coordination state is
passed on unchanged); if the transport yields no next reply or errors, the
state is likewise returned untouched. -/
theorem empty_prompt_round_replies_empty_without_side_effects :
    (∀ (tid n i : String) (next : KbAuthResponse)
        (rest : List (Except String KbAuthResponse))
        (mfaTimeline : List WaitResult) (st : KbiState),
        kbiLoop tid (.infoRequest n i []) (.ok next :: rest) mfaTimeline st =
          kbiLoop tid next rest mfaTimeline st) ∧
    (∀ (tid n i : String) (mfaTimeline : List WaitResult) (st : KbiState),
        kbiLoop tid (.infoRequest n i []) [] mfaTimeline st =
          (.error "Disconnected", st)) ∧
    (∀ (tid n i e : String) (rest : List (Except String KbAuthResponse))
        (mfaTimeline : List WaitResult) (st : KbiState),
        kbiLoop tid (.infoRequest n i []) (.error e :: rest) mfaTimeline st =
          (.error e, st)) := by
  refine ⟨?_, ?_, ?_⟩ <;> (intros; rw [kbiLoop]) <;> rfl

/-- C7: after the close command returns, the id is absent from its registry,
so an immediately subsequent write to that id observes not-found — an error
for a remote session, a silent ok for a local session. -/
theorem close_removes_id_and_write_observes_not_found :
    ∀ (id : String) (wr : Except String Unit)
      (locals : AssocMap PtySessionModel) (remotes : AssocMap SshSessionModel),
      AssocMap.get id (close_terminal id locals) = none ∧
      AssocMap.get id (close_ssh_terminal id remotes) = none ∧
      write_to_terminal id wr (close_terminal id locals) = .ok () ∧
      write_to_ssh_terminal id wr (close_ssh_terminal id remotes) =
        .error ("Session " ++ id ++ " not found") := by
  intro id wr locals remotes
  have h1 : AssocMap.get id (close_terminal id locals) = none :=
    AssocMap.get_remove_self id locals
  have h2 : AssocMap.get id (close_ssh_terminal id remotes) = none :=
    AssocMap.get_remove_self id remotes
  exact ⟨h1, h2, by simp [write_to_terminal, h1], by simp [write_to_ssh_terminal, h2]⟩

theorem channelSetup_kbiAttempted (config : SshConfig) (w : RemoteWorld)
    (kbi : Bool) (st : KbiState) : (channelSetup config w kbi st).kbiAttempted = kbi := by
  rcases hop : w.channel_open_session with e | u
  · simp [channelSetup, hop]
  · rcases hpty : w.request_pty with e | u2
    · simp [channelSetup, hop, hpty]
    · rcases hsh : w.request_shell with e | u3 <;> simp [channelSetup, hop, hpty, hsh]

/-- C1: if the primary authentication attempt (password, or decoding and
using a private key) returns a hard error, `SshSession::new` fails
immediately with that authentication error and keyboard-interactive (MFA)
authentication is never attempted; keyboard-interactive authentication is
entered exactly when the primary attempt completes with a non-error
rejection. -/
theorem primary_auth_error_aborts_without_mfa :
    (∀ (config : SshConfig) (tid : String) (w : RemoteWorld) (st : KbiState)
        (e : String),
        w.connect = .ok () →
        primaryAuthAttempt config.auth w = .error e →
        (sshSessionNew config tid w st).result = .error e ∧
        (sshSessionNew config tid w st).kbiAttempted = false) ∧
    (∀ (config : SshConfig) (tid : String) (w : RemoteWorld) (st : KbiState),
        w.connect = .ok () →
        ((sshSessionNew config tid w st).kbiAttempted = true ↔
          primaryAuthAttempt config.auth w = .ok false)) := by
  constructor
  · intro config tid w st e hc hp
    constructor <;> simp [sshSessionNew, hc, hp]
  · intro config tid w st hc
    cases hp : primaryAuthAttempt config.auth w with
    | error e => simp [sshSessionNew, hc, hp]
    | ok b =>
      cases b with
      | true => simp [sshSessionNew, hc, hp, channelSetup_kbiAttempted]
      | false =>
        rcases hperf : perform_keyboard_interactive_auth tid w.kbiScript
            w.mfaTimeline st with ⟨r, st2⟩
        rcases r with rb | e
        · simp [sshSessionNew, hc, hp, hperf]
        · cases e <;> simp [sshSessionNew, hc, hp, hperf, channelSetup_kbiAttempted]

/-- Witness for C1: a password credential whose authenticate call errors —
creation fails with the wrapped error and MFA is never entered; and a
rejected password — MFA is entered. -/
theorem primary_auth_error_aborts_without_mfa_witness :
    (sshSessionNew ⟨"host", 22, "u", .password "pw"⟩ "t1"
        ⟨.ok (), .ok "", .ok (), .ok (), .error "boom", [], [], .ok (), .ok (), .ok ()⟩
        ⟨[], [], 0⟩).result = .error ("Authentication error: " ++ "boom") ∧
    (sshSessionNew ⟨"host", 22, "u", .password "pw"⟩ "t1"
        ⟨.ok (), .ok "", .ok (), .ok (), .error "boom", [], [], .ok (), .ok (), .ok ()⟩
        ⟨[], [], 0⟩).kbiAttempted = false ∧
    (sshSessionNew ⟨"host", 22, "u", .password "pw"⟩ "t1"
        ⟨.ok (), .ok "", .ok (), .ok (), .ok false, [.ok .success], [], .ok (), .ok (), .ok ()⟩
        ⟨[], [], 0⟩).kbiAttempted = true := by
  have h1 := primary_auth_error_aborts_without_mfa.1
    ⟨"host", 22, "u", .password "pw"⟩ "t1"
    ⟨.ok (), .ok "", .ok (), .ok (), .error "boom", [], [], .ok (), .ok (), .ok ()⟩
    ⟨[], [], 0⟩ ("Authentication error: " ++ "boom") rfl rfl
  have h2 := (primary_auth_error_aborts_without_mfa.2
    ⟨"host", 22, "u", .password "pw"⟩ "t1"
    ⟨.ok (), .ok "", .ok (), .ok (), .ok false, [.ok .success], [], .ok (), .ok (), .ok ()⟩
    ⟨[], [], 0⟩ rfl).mpr rfl
  exact ⟨h1.1, h1.2, h2⟩

/-- C2: for every interactive MFA round that emits a non-empty prompt, if no
response is submitted within the fixed 120-second timeout, authentication
fails with the timeout error (which session creation surfaces as an MFA
authentication error) and the pending challenge entry for that session id is
removed, so any later submit for that id fails with the no-pending error. -/
theorem mfa_timeout_fails_and_clears_pending :
    (∀ (tid n i : String) (p : KbPrompt) (ps : List KbPrompt)
        (script : List (Except String KbAuthResponse))
        (mfaTimeline : List WaitResult) (st : KbiState) (rs : List String),
        mfaTimeline.headD .timedOut = .timedOut →
        (kbiLoop tid (.infoRequest n i (p :: ps)) script mfaTimeline st).1 =
          .error "MFA authentication timeout" ∧
        AssocMap.get tid
          (kbiLoop tid (.infoRequest n i (p :: ps)) script mfaTimeline st).2.channels =
            none ∧
        (submit_ssh_mfa_response tid rs
          (kbiLoop tid (.infoRequest n i (p :: ps)) script mfaTimeline st).2.channels).result =
            .error (noPendingMfaError tid)) ∧
    mfaResponseTimeoutSecs = 120 ∧
    (∀ (config : SshConfig) (tid : String) (w : RemoteWorld) (st : KbiState)
        (e : String),
        w.connect = .ok () → primaryAuthAttempt config.auth w = .ok false →
        (perform_keyboard_interactive_auth tid w.kbiScript w.mfaTimeline st).1 =
          .error e →
        (sshSessionNew config tid w st).result =
          .error ("MFA authentication error: " ++ e)) := by
  refine ⟨?_, rfl, ?_⟩
  · intro tid n i p ps script mfaTimeline st rs h
    have hval : kbiLoop tid (.infoRequest n i (p :: ps)) script mfaTimeline st =
        (.error "MFA authentication timeout",
         { channels := AssocMap.remove tid
             (AssocMap.insert tid ⟨st.nextChallengeId, true⟩ st.channels),
           events := st.events ++ [⟨tid, n, i, (p :: ps).map fun q => ⟨q.prompt, q.echo⟩⟩],
           nextChallengeId := st.nextChallengeId + 1 }) := by
      rw [kbiLoop.eq_def]
      rw [List.headD_eq_head?] at h
      simp [h]
    rw [hval]
    refine ⟨rfl, AssocMap.get_remove_self tid _, ?_⟩
    simp [submit_ssh_mfa_response, AssocMap.get_remove_self]
  · intro config tid w st e hc hp hk
    rcases hperf : perform_keyboard_interactive_auth tid w.kbiScript
        w.mfaTimeline st with ⟨r, st2⟩
    rw [hperf] at hk
    simp only at hk
    subst hk
    simp [sshSessionNew, hc, hp, hperf]

/-- Witness for C2: a single non-empty prompt round with no frontend
response — the loop fails with the timeout error, the entry is gone, and a
late submit observes the no-pending error. -/
theorem mfa_timeout_fails_and_clears_pending_witness :
    (kbiLoop "t1" (.infoRequest "otp" "enter code" [⟨"Code: ", false⟩]) [] [] ⟨[], [], 0⟩).1 =
      .error "MFA authentication timeout" ∧
    (submit_ssh_mfa_response "t1" ["000000"]
      (kbiLoop "t1" (.infoRequest "otp" "enter code" [⟨"Code: ", false⟩]) [] []
        ⟨[], [], 0⟩).2.channels).result = .error (noPendingMfaError "t1") ∧
    (sshSessionNew ⟨"host", 22, "u", .password "pw"⟩ "t1"
        ⟨.ok (), .ok "", .ok (), .ok (), .ok false,
          [.ok (.infoRequest "otp" "enter code" [⟨"Code: ", false⟩])], [],
          .ok (), .ok (), .ok ()⟩ ⟨[], [], 0⟩).result =
      .error ("MFA authentication error: " ++ "MFA authentication timeout") := by
  have h1 := mfa_timeout_fails_and_clears_pending.1 "t1" "otp" "enter code"
    ⟨"Code: ", false⟩ [] [] [] ⟨[], [], 0⟩ ["000000"] rfl
  have h2 := mfa_timeout_fails_and_clears_pending.2.2
    ⟨"host", 22, "u", .password "pw"⟩ "t1"
    ⟨.ok (), .ok "", .ok (), .ok (), .ok false,
      [.ok (.infoRequest "otp" "enter code" [⟨"Code: ", false⟩])], [],
      .ok (), .ok (), .ok ()⟩ ⟨[], [], 0⟩ "MFA authentication timeout" rfl rfl
    (by simp [perform_keyboard_interactive_auth, kbiLoop])
  exact ⟨h1.1, h1.2.2, h2⟩

/-- C9: for every remote session creation that reaches ChannelSetup, the
manager opens a session channel, requests a pseudo-terminal with the fixed
default 80x24 geometry (the caller-supplied `SshConfig` carries no sizes),
and requests an interactive shell on it; a failure in any of these steps
makes the creation fail with the corresponding error. Both the
primary-success path and the MFA-success path reach this phase. -/
theorem channel_setup_requests_pty_and_shell :
    (∀ (config : SshConfig) (w : RemoteWorld) (kbi : Bool) (st : KbiState),
        (w.channel_open_session = .ok () →
          (channelSetup config w kbi st).ptyRequested =
            some { term := config.username, cols := sshDefaultCols,
                   rows := sshDefaultRows, pix_width := 0, pix_height := 0 }) ∧
        (∀ e, w.channel_open_session = .error e →
          (channelSetup config w kbi st).result =
            .error ("Failed to open channel: " ++ e)) ∧
        (∀ e, w.channel_open_session = .ok () → w.request_pty = .error e →
          (channelSetup config w kbi st).result =
            .error ("PTY request failed: " ++ e)) ∧
        (∀ e, w.channel_open_session = .ok () → w.request_pty = .ok () →
          w.request_shell = .error e →
          (channelSetup config w kbi st).result =
            .error ("Shell request failed: " ++ e)) ∧
        (w.channel_open_session = .ok () → w.request_pty = .ok () →
          (channelSetup config w kbi st).shellRequested = true) ∧
        (w.channel_open_session = .ok () → w.request_pty = .ok () →
          w.request_shell = .ok () → (channelSetup config w kbi st).result = .ok ())) ∧
    (∀ (config : SshConfig) (tid : String) (w : RemoteWorld) (st : KbiState),
        w.connect = .ok () → primaryAuthAttempt config.auth w = .ok true →
        sshSessionNew config tid w st = channelSetup config w false st) ∧
    (∀ (config : SshConfig) (tid : String) (w : RemoteWorld) (st st2 : KbiState),
        w.connect = .ok () → primaryAuthAttempt config.auth w = .ok false →
        perform_keyboard_interactive_auth tid w.kbiScript w.mfaTimeline st =
          (.ok true, st2) →
        sshSessionNew config tid w st = channelSetup config w true st2) := by
  refine ⟨?_, ?_, ?_⟩
  · intro config w kbi st
    refine ⟨?_, ?_, ?_, ?_, ?_, ?_⟩
    · intro hop
      cases hpty : w.request_pty <;> cases hsh : w.request_shell <;>
        simp [channelSetup, hop, hpty, hsh, sshDefaultCols, sshDefaultRows]
    · intro e hop
      simp [channelSetup, hop]
    · intro e hop hpty
      simp [channelSetup, hop, hpty]
    · intro e hop hpty hsh
      simp [channelSetup, hop, hpty, hsh]
    · intro hop hpty
      cases hsh : w.request_shell <;> simp [channelSetup, hop, hpty, hsh]
    · intro hop hpty hsh
      simp [channelSetup, hop, hpty, hsh]
  · intro config tid w st hc hp
    simp [sshSessionNew, hc, hp]
  · intro config tid w st st2 hc hp hperf
    simp [sshSessionNew, hc, hp, hperf]

/-- Witness for C9: with every channel-setup call succeeding after a
successful password authentication, the PTY request carries the fixed
80x24 geometry and the shell is requested. -/
theorem channel_setup_requests_pty_and_shell_witness :
    (channelSetup ⟨"host", 22, "u", .password "pw"⟩
        ⟨.ok (), .ok "", .ok (), .ok (), .ok true, [], [], .ok (), .ok (), .ok ()⟩
        false ⟨[], [], 0⟩).ptyRequested = some ⟨"u", 80, 24, 0, 0⟩ ∧
    (channelSetup ⟨"host", 22, "u", .password "pw"⟩
        ⟨.ok (), .ok "", .ok (), .ok (), .ok true, [], [], .ok (), .error "refused", .ok ()⟩
        false ⟨[], [], 0⟩).result = .error ("PTY request failed: " ++ "refused") ∧
    sshSessionNew ⟨"host", 22, "u", .password "pw"⟩ "t1"
        ⟨.ok (), .ok "", .ok (), .ok (), .ok true, [], [], .ok (), .ok (), .ok ()⟩
        ⟨[], [], 0⟩ =
      channelSetup ⟨"host", 22, "u", .password "pw"⟩
        ⟨.ok (), .ok "", .ok (), .ok (), .ok true, [], [], .ok (), .ok (), .ok ()⟩
        false ⟨[], [], 0⟩ := by
  have h1 := ((channel_setup_requests_pty_and_shell.1
    ⟨"host", 22, "u", .password "pw"⟩
    ⟨.ok (), .ok "", .ok (), .ok (), .ok true, [], [], .ok (), .ok (), .ok ()⟩
    false ⟨[], [], 0⟩).1) rfl
  have h2 := ((channel_setup_requests_pty_and_shell.1
    ⟨"host", 22, "u", .password "pw"⟩
    ⟨.ok (), .ok "", .ok (), .ok (), .ok true, [], [], .ok (), .error "refused", .ok ()⟩
    false ⟨[], [], 0⟩).2.2.1) "refused" rfl rfl
  have h3 := channel_setup_requests_pty_and_shell.2.1
    ⟨"host", 22, "u", .password "pw"⟩ "t1"
    ⟨.ok (), .ok "", .ok (), .ok (), .ok true, [], [], .ok (), .ok (), .ok ()⟩
    ⟨[], [], 0⟩ rfl rfl
  exact ⟨by rw [h1]; rfl, h2, h3⟩

/-- C5: for every create call (local or remote) whose session id is already
present in the corresponding registry, the call returns success without
attempting a second process/connection and without changing the existing
registry. -/
theorem create_existing_id_is_noop_success :
    (∀ (config : PtyConfig) (parentEnv : List (String × String)) (w : PtyWorld)
        (sessions : AssocMap PtySessionModel) (s : PtySessionModel),
        AssocMap.get config.id sessions = some s →
        create_terminal config parentEnv w sessions =
          { result := .ok (), sessions := sessions, spawnAttempted := false }) ∧
    (∀ (config : Connection) (w : RemoteWorld) (st : KbiState)
        (sessions : AssocMap SshSessionModel) (s : SshSessionModel),
        AssocMap.get config.id sessions = some s →
        create_ssh_terminal config w st sessions =
          ({ result := .ok (), sessions := sessions, spawnAttempted := false }, st)) := by
  constructor
  · intro config parentEnv w sessions s hget
    simp [create_terminal, AssocMap.contains_key, hget]
  · intro config w st sessions s hget
    simp [create_ssh_terminal, AssocMap.contains_key, hget]

/-- Witness for C5 at concrete one-entry registries. -/
theorem create_existing_id_is_noop_success_witness :
    create_terminal ⟨"a", "/bin/zsh", 80, 24⟩ [] ⟨.ok (), .ok (), .ok (), .ok ()⟩
        [("a", ⟨"a", "/bin/bash", ["-i"], [], 24, 80⟩)] =
      { result := .ok (),
        sessions := [("a", ⟨"a", "/bin/bash", ["-i"], [], 24, 80⟩)],
        spawnAttempted := false } ∧
    create_ssh_terminal ⟨"b", "prod", .ssh, some ⟨"host", 22, "u", .password "pw"⟩⟩
        ⟨.ok (), .ok "", .ok (), .ok (), .ok true, [], [], .ok (), .ok (), .ok ()⟩
        ⟨[], [], 0⟩ [("b", ⟨"b"⟩)] =
      ({ result := .ok (), sessions := [("b", ⟨"b"⟩)], spawnAttempted := false },
        ⟨[], [], 0⟩) :=
  ⟨create_existing_id_is_noop_success.1 ⟨"a", "/bin/zsh", 80, 24⟩ []
      ⟨.ok (), .ok (), .ok (), .ok ()⟩ [("a", ⟨"a", "/bin/bash", ["-i"], [], 24, 80⟩)]
      ⟨"a", "/bin/bash", ["-i"], [], 24, 80⟩ (by decide),
   create_existing_id_is_noop_success.2
      ⟨"b", "prod", .ssh, some ⟨"host", 22, "u", .password "pw"⟩⟩
      ⟨.ok (), .ok "", .ok (), .ok (), .ok true, [], [], .ok (), .ok (), .ok ()⟩
      ⟨[], [], 0⟩ [("b", ⟨"b"⟩)] ⟨"b"⟩ (by decide)⟩

/-- C6: if session creation fails at any phase, the failing create call
returns an error and adds no entry for that id to the session registry —
the registry is unchanged by a failed creation. -/
theorem failed_create_leaves_registry_unchanged :
    (∀ (config : PtyConfig) (parentEnv : List (String × String)) (w : PtyWorld)
        (sessions : AssocMap PtySessionModel) (e : String),
        (create_terminal config parentEnv w sessions).result = .error e →
        (create_terminal config parentEnv w sessions).sessions = sessions) ∧
    (∀ (config : Connection) (w : RemoteWorld) (st : KbiState)
        (sessions : AssocMap SshSessionModel) (e : String),
        (create_ssh_terminal config w st sessions).1.result = .error e →
        (create_ssh_terminal config w st sessions).1.sessions = sessions) := by
  constructor
  · intro config parentEnv w sessions e herr
    by_cases hc : AssocMap.contains_key config.id sessions
    · simp [create_terminal, hc]
    · cases hnew : ptySessionNew config parentEnv w with
      | error e2 => simp [create_terminal, hc, hnew]
      | ok s =>
        rw [create_terminal] at herr
        simp [hc, hnew] at herr
  · intro config w st sessions e herr
    by_cases hc : AssocMap.contains_key config.id sessions
    · simp [create_ssh_terminal, hc]
    · cases hcfg : config.ssh_config with
      | none => simp [create_ssh_terminal, hc, hcfg]
      | some cfg =>
        cases hres : (sshSessionNew cfg config.id w st).result with
        | error e2 => simp [create_ssh_terminal, hc, hcfg, hres]
        | ok u =>
          rw [create_ssh_terminal] at herr
          simp [hc, hcfg, hres] at herr

/-- Witness for C6: a PTY allocation failure and an SSH authentication
failure both leave their (empty) registries unchanged while erroring. -/
theorem failed_create_leaves_registry_unchanged_witness :
    (create_terminal ⟨"a", "/bin/zsh", 80, 24⟩ []
        ⟨.error "no pty", .ok (), .ok (), .ok ()⟩ []).result =
      .error ("Failed to create terminal: " ++ "no pty") ∧
    (create_terminal ⟨"a", "/bin/zsh", 80, 24⟩ []
        ⟨.error "no pty", .ok (), .ok (), .ok ()⟩ []).sessions = [] ∧
    (create_ssh_terminal ⟨"b", "prod", .ssh, some ⟨"host", 22, "u", .password "pw"⟩⟩
        ⟨.ok (), .ok "", .ok (), .ok (), .error "denied", [], [], .ok (), .ok (), .ok ()⟩
        ⟨[], [], 0⟩ []).1.result =
      .error ("Failed to create SSH session: " ++ ("Authentication error: " ++ "denied")) ∧
    (create_ssh_terminal ⟨"b", "prod", .ssh, some ⟨"host", 22, "u", .password "pw"⟩⟩
        ⟨.ok (), .ok "", .ok (), .ok (), .error "denied", [], [], .ok (), .ok (), .ok ()⟩
        ⟨[], [], 0⟩ []).1.sessions = [] := by
  refine ⟨rfl, ?_, rfl, ?_⟩
  · exact failed_create_leaves_registry_unchanged.1 ⟨"a", "/bin/zsh", 80, 24⟩ []
      ⟨.error "no pty", .ok (), .ok (), .ok ()⟩ []
      ("Failed to create terminal: " ++ "no pty") rfl
  · exact failed_create_leaves_registry_unchanged.2
      ⟨"b", "prod", .ssh, some ⟨"host", 22, "u", .password "pw"⟩⟩
      ⟨.ok (), .ok "", .ok (), .ok (), .error "denied", [], [], .ok (), .ok (), .ok ()⟩
      ⟨[], [], 0⟩ []
      ("Failed to create SSH session: " ++ ("Authentication error: " ++ "denied")) rfl

/-- C8, evaluated at a failing input: the claim says the spawned shell's
environment consists of exactly the allow-listed parent variables plus
forced TERM, with no other parent variable inherited. Because
`CommandBuilder::new` seeds the full parent environment and the code never
calls `env_clear`, a local creation whose parent environment holds the
non-allow-listed variable SECRET_TOKEN succeeds with SECRET_TOKEN still
present in the child environment (TERM is forced and HOME kept as the
claim expects): the allow-list loop only re-sets already-inherited
values. -/
theorem child_env_inherits_non_allowlisted_variable :
    ∃ s : PtySessionModel,
      ptySessionNew ⟨"a", "/bin/zsh", 80, 24⟩
          [("HOME", "/root"), ("SECRET_TOKEN", "xyz"), ("LANG", "C.UTF-8")]
          ⟨.ok (), .ok (), .ok (), .ok ()⟩ = .ok s ∧
      AssocMap.get "SECRET_TOKEN" s.childEnv = some "xyz" ∧
      envAllowList.contains "SECRET_TOKEN" = false ∧
      "SECRET_TOKEN" ≠ "TERM" ∧
      AssocMap.get "TERM" s.childEnv = some "xterm-256color" ∧
      AssocMap.get "HOME" s.childEnv = some "/root" := by
  refine ⟨_, rfl, ?_, ?_, ?_, ?_, ?_⟩ <;> decide

end Konnect
